import Mathlib

/-!
# Battery degradation core: shallow embedding

A shallow embedding, over the real numbers, of the degradation-modeling core of
the battery_degradation_api repository:

* `src/utils/degradationCalculator.js` — `computeDegradation` (spec name
  `evaluateFade`), `calculateCalibrationFactor` (spec name `calibrate`),
  `buildTrend`, `getModelConfidence` (spec name `assessConfidence`);
* `src/services/battery.service.js` — the `nominalCapacity` precondition guard
  that the service layer (`analyzeBatteryHealth`, lines 12–15) runs before the
  core; `evaluateFade` below composes that guard with `computeDegradation`.

JavaScript numbers are modelled as real numbers; JavaScript's optional fields
(`currentCapacity`, `nominalCapacity`, `calendarAgeMonths`, `calendarAgeYears`)
are modelled as `Option ℝ`.  The truthiness test `x ?`/`!x` on a number is
`some c` with `c ≠ 0`.  `n.toFixed(2)` coerced back to a number is modelled by
`round2` (round half up to two decimals), `Math.round` by `⌊x + 1/2⌋`,
`Math.floor` on the non-negative quantities where the source applies it by
`Nat.floor`.  The local bindings of `computeDegradation` are factored into
top-level definitions (`cycleFadeFraction`, `calendarFadeFraction`,
`totalFadePct`, `modelHealthPct`, `observedHealthPct`) so that theorems can
speak about them; `computeDegradation` assembles exactly the record the source
returns from them.
-/

noncomputable section

/-- Input payload of the core (spec §3 `BatteryProfile`).  Fields that the
source destructures with a default (`chargeCycles = 0`, `avgTemperature = 25`,
`dodPct = 80`, `cRate = 0.8`) are plain reals here — the calling layer supplies
a fully defaulted profile (spec §6); the genuinely optional fields stay
`Option ℝ`. -/
structure BatteryProfile where
  chargeCycles : ℝ
  avgTemperature : ℝ
  nominalCapacity : Option ℝ
  currentCapacity : Option ℝ
  dodPct : ℝ
  cRate : ℝ
  calendarAgeMonths : Option ℝ
  calendarAgeYears : Option ℝ

/-- Output record of `computeDegradation` (spec name `FadeResult`). -/
structure FadeResult where
  healthPct : ℝ
  soh : ℝ
  eolPct : ℝ
  estimatedRUIMonths : ℤ
  modelHealthPct : ℝ
  cycleFadePct : ℝ
  calendarFadePct : ℝ

/-- One sample of the trend curve returned by `buildTrend`. -/
structure TrendPoint where
  cycle : ℝ
  healthPct : ℝ
  capacity : ℝ

/-- Result record of `getModelConfidence`. -/
structure Confidence where
  level : String
  description : String
  accuracy : String

/-- Source: `const R = 8.314; // J/mol·K` (degradationCalculator.js line 20). -/
def R : ℝ := 8.314

/-- Source: `Math.exp(-Ea / (R * Tk))` (degradationCalculator.js lines 22–24). -/
def arrhenius (Tk Ea : ℝ) : ℝ := Real.exp (-Ea / (R * Tk))

/-- Source: `+x.toFixed(2)`: round half up to two decimal places.  The source's
values fed to `toFixed` are non-negative, where rounding half up agrees with
JavaScript's rounding of the decimal string. -/
def round2 (x : ℝ) : ℝ := (⌊x * 100 + 1 / 2⌋ : ℤ) / 100

/-- The calendar age in years exactly as `buildTrend` reads it (lines 136–139,
162–164): `typeof calendarAgeYears === 'number' ? calendarAgeYears
: (calendarAgeMonths || 0) / 12` — note: not clamped at 0 here. -/
def rawYears (p : BatteryProfile) : ℝ :=
  match p.calendarAgeYears with
  | some y => y
  | none => p.calendarAgeMonths.getD 0 / 12

/-- The `years` binding of `computeDegradation` (lines 38–40): each branch of
the conditional is additionally clamped at 0 with `Math.max`. -/
def resolvedYears (p : BatteryProfile) : ℝ :=
  match p.calendarAgeYears with
  | some y => max y 0
  | none => max (p.calendarAgeMonths.getD 0 / 12) 0

/-- Source: `const cRateAccel = cRate > 1 ? 1 + (cRate - 1) * 0.5 : 1.0` (line 50). -/
def cRateAccel (p : BatteryProfile) : ℝ :=
  if 1 < p.cRate then 1 + (p.cRate - 1) * 0.5 else 1.0

/-- Source: `const DoD_factor = Math.pow(Math.max(dodPct, 0) / 100, alpha)` with
`alpha = 0.6` (lines 44, 53). -/
def dodFactor (p : BatteryProfile) : ℝ := (max p.dodPct 0 / 100) ^ (0.6 : ℝ)

/-- Source: `cycleFadeFraction` (line 54): `k_c_base * DoD_factor *
Math.sqrt(Math.max(chargeCycles, 0)) * cRateAccel` with
`k_c_base = 0.015 * calibrationFactor` (line 43). -/
def cycleFadeFraction (p : BatteryProfile) (calibrationFactor : ℝ) : ℝ :=
  0.015 * calibrationFactor * dodFactor p *
    Real.sqrt (max p.chargeCycles 0) * cRateAccel p

/-- Source: `calendarFadeFraction` (line 58): `years > 0 ? k_t_base * arrhenius(Tk, Ea)
* Math.pow(years, beta) : 0` with `k_t_base = 0.01 * calibrationFactor`,
`Ea = 25000`, `beta = 0.7`, `Tk = avgTemperature + 273.15` (lines 45–47, 57). -/
def calendarFadeFraction (p : BatteryProfile) (calibrationFactor : ℝ) : ℝ :=
  if 0 < resolvedYears p then
    0.01 * calibrationFactor * arrhenius (p.avgTemperature + 273.15) 25000 *
      resolvedYears p ^ (0.7 : ℝ)
  else 0

/-- Source: `const totalFadePct = (cycleFadeFraction + calendarFadeFraction) * 100`
(line 60). -/
def totalFadePct (p : BatteryProfile) (calibrationFactor : ℝ) : ℝ :=
  (cycleFadeFraction p calibrationFactor + calendarFadeFraction p calibrationFactor) * 100

/-- Source: `const modelHealthPct = Math.max(0, 100 - totalFadePct)` (line 63). -/
def modelHealthPct (p : BatteryProfile) (calibrationFactor : ℝ) : ℝ :=
  max 0 (100 - totalFadePct p calibrationFactor)

/-- Source: `const observedHealthPct = currentCapacity ? Math.max(0, Math.min(100,
(currentCapacity / nominalCapacity) * 100)) : modelHealthPct` (lines 64–66).
The conditional tests JavaScript truthiness, so a supplied capacity of `0`
falls through to the model value.  `nominalCapacity` was destructured with
default `100` (line 30). -/
def observedHealthPct (p : BatteryProfile) (calibrationFactor : ℝ) : ℝ :=
  match p.currentCapacity with
  | some c =>
      if c = 0 then modelHealthPct p calibrationFactor
      else max 0 (min 100 (c / p.nominalCapacity.getD 100 * 100))
  | none => modelHealthPct p calibrationFactor

/-- Source: `computeDegradation(payload, calibrationFactor = 1.0)` (lines 26–91),
assembled from the helper definitions above plus the remaining-life estimate
(lines 68–78) and the returned record (lines 80–90). -/
def computeDegradation (p : BatteryProfile) (calibrationFactor : ℝ := 1.0) :
    FadeResult :=
  let soh := observedHealthPct p calibrationFactor
  let yearsElapsed := max (resolvedYears p) 0.1
  let monthsElapsed := max 1 (yearsElapsed * 12)
  let monthlyFadeRate := max ((100 - soh) / monthsElapsed) 0.05
  let monthsToEol := max 0 ((soh - 70) / monthlyFadeRate)
  { healthPct := observedHealthPct p calibrationFactor
    soh := soh
    eolPct := 70
    estimatedRUIMonths := ⌊monthsToEol + 1 / 2⌋
    modelHealthPct := modelHealthPct p calibrationFactor
    cycleFadePct := round2 (cycleFadeFraction p calibrationFactor * 100)
    calendarFadePct := round2 (calendarFadeFraction p calibrationFactor * 100) }

/-- Source: `calculateCalibrationFactor(payload)` (lines 93–112).  The guard
`!currentCapacity || chargeCycles < 50` is truthiness on `currentCapacity`.
The source destructures `nominalCapacity` without a default; the service layer
(battery.service.js lines 12–15) rejects every payload whose `nominalCapacity`
is missing before the core runs, so on the profiles that reach this function
the `Option.getD 100` below is applied to a present value and coincides with
the source's raw read. -/
def calculateCalibrationFactor (p : BatteryProfile) : ℝ :=
  match p.currentCapacity with
  | none => 1.0
  | some c =>
    if c = 0 ∨ p.chargeCycles < 50 then 1.0
    else
      let modelResultHealth := (computeDegradation p 1.0).modelHealthPct
      let actualHealthPct := c / p.nominalCapacity.getD 100 * 100
      let actualFadePct := 100 - actualHealthPct
      let modelFadePct := 100 - modelResultHealth
      if modelFadePct < 0.1 then 1.0
      else max 0.1 (min 3.0 (actualFadePct / modelFadePct))

/-- Source: `const step = Math.max(25, Math.floor(totalCycles / 20) || 25)`
(line 127); `totalCycles` is non-negative at the call site. -/
def trendStep (totalCycles : ℝ) : ℕ :=
  max 25 (if ⌊totalCycles / 20⌋₊ = 0 then 25 else ⌊totalCycles / 20⌋₊)

/-- The payload the trend loop builds for each sampled cycle index `i`
(lines 135–150): a fresh object with `currentCapacity: null` and
`calendarAgeYears: yearsProgress` where `yearsProgress = rawYears ·
(i / Math.max(totalCycles || 1, 1))`.  The loop passes the destructured
`nominalCapacity` (default `100` applied at line 118). -/
def simProfile (p : BatteryProfile) (totalCycles i : ℝ) : BatteryProfile :=
  { chargeCycles := i
    avgTemperature := p.avgTemperature
    nominalCapacity := some (p.nominalCapacity.getD 100)
    currentCapacity := none
    dodPct := p.dodPct
    cRate := p.cRate
    calendarAgeMonths := none
    calendarAgeYears :=
      some (rawYears p * (i / max (if totalCycles = 0 then 1 else totalCycles) 1)) }

/-- One loop iteration of `buildTrend` (lines 142–157): evaluate the model at
the sampled index, then push `{cycle, healthPct: +h.toFixed(2), capacity:
+((h/100)*nominalCapacity).toFixed(2)}`. -/
def trendPoint (p : BatteryProfile) (f totalCycles i : ℝ) : TrendPoint :=
  { cycle := i
    healthPct := round2 (computeDegradation (simProfile p totalCycles i) f).healthPct
    capacity := round2 ((computeDegradation (simProfile p totalCycles i) f).healthPct
      / 100 * p.nominalCapacity.getD 100) }

/-- The point appended after the loop when the step misses the end
(lines 160–178): the model evaluated at `{...payload, currentCapacity: null,
chargeCycles: totalCycles, calendarAgeYears: yearsAtEnd}` with `yearsAtEnd`
the raw calendar age. -/
def endProfile (p : BatteryProfile) (totalCycles : ℝ) : BatteryProfile :=
  { p with currentCapacity := none
           chargeCycles := totalCycles
           calendarAgeYears := some (rawYears p) }

def endPoint (p : BatteryProfile) (f totalCycles : ℝ) : TrendPoint :=
  { cycle := totalCycles
    healthPct := round2 (computeDegradation (endProfile p totalCycles) f).healthPct
    capacity := round2 ((computeDegradation (endProfile p totalCycles) f).healthPct
      / 100 * p.nominalCapacity.getD 100) }

/-- The list produced by the loop `for (let i = 0; i <= totalCycles; i += step)`
(lines 135–158).  The indices visited are `k * step` for every natural `k`
with `(k * step : ℝ) ≤ totalCycles`, i.e. `k ≤ ⌊totalCycles / step⌋₊`. -/
def trendLoop (p : BatteryProfile) (f totalCycles : ℝ) (step : ℕ) :
    List TrendPoint :=
  (List.range (⌊totalCycles / (step : ℝ)⌋₊ + 1)).map fun (k : ℕ) =>
    trendPoint p f totalCycles ((k : ℝ) * step)

/-- Source: `buildTrend(payload)` (lines 114–182): run the loop, then, testing the
last generated point (`points[points.length - 1].cycle < totalCycles`,
line 161), append the exact terminal point when the step missed the end. -/
def buildTrend (p : BatteryProfile) : List TrendPoint :=
  let totalCycles := max p.chargeCycles 0
  let step := trendStep totalCycles
  let f := calculateCalibrationFactor p
  let pts := trendLoop p f totalCycles step
  match pts.getLast? with
  | none => pts
  | some lastPt =>
    if lastPt.cycle < totalCycles then pts ++ [endPoint p f totalCycles] else pts

/-- Source: `getModelConfidence(payload)` (lines 185–217).  The guard
`!currentCapacity || chargeCycles < 50` is truthiness on `currentCapacity`. -/
def getModelConfidence (p : BatteryProfile) : Confidence :=
  let insufficient : Confidence :=
    { level := "low"
      description := "Insufficient cycle data for accurate prediction"
      accuracy := "±6 months" }
  match p.currentCapacity with
  | none => insufficient
  | some c =>
    if c = 0 ∨ p.chargeCycles < 50 then insufficient
    else
      let calibrationFactor := calculateCalibrationFactor p
      if 0.8 ≤ calibrationFactor ∧ calibrationFactor ≤ 1.2 then
        { level := "high"
          description := "Model closely matches measured performance"
          accuracy := "±2 months" }
      else if 0.5 ≤ calibrationFactor ∧ calibrationFactor ≤ 2.0 then
        { level := "medium"
          description := "Model adjusted based on actual measurements"
          accuracy := "±4 months" }
      else
        { level := "low"
          description := "Significant deviation between model and measurements"
          accuracy := "±6 months" }

/-- The spec's `evaluateFade` as realized at the core boundary: the service
layer's precondition guard `if (!input.nominalCapacity ||
input.nominalCapacity <= 0) throw new Error('nominalCapacity must be a
positive number')` (battery.service.js lines 12–15) followed by the core
computation `computeDegradation(input)` with the default calibration factor.
A missing or zero `nominalCapacity` fails the truthiness test, a negative one
the `<= 0` test; for a present value both reduce to `nc ≤ 0`. -/
def evaluateFade (p : BatteryProfile) : Except String FadeResult :=
  match p.nominalCapacity with
  | none => .error "nominalCapacity must be a positive number"
  | some nc =>
    if nc ≤ 0 then .error "nominalCapacity must be a positive number"
    else .ok (computeDegradation p 1.0)

end

/-! ## Basic projection lemmas -/

theorem computeDegradation_healthPct (p : BatteryProfile) (f : ℝ) :
    (computeDegradation p f).healthPct = observedHealthPct p f := rfl

theorem computeDegradation_modelHealthPct (p : BatteryProfile) (f : ℝ) :
    (computeDegradation p f).modelHealthPct = modelHealthPct p f := rfl

/-! ## Unfolding lemmas for the branching definitions -/

theorem calibrationFactor_of_none (p : BatteryProfile)
    (h : p.currentCapacity = none) : calculateCalibrationFactor p = 1.0 := by
  unfold calculateCalibrationFactor
  rw [h]

theorem calibrationFactor_of_guard (p : BatteryProfile) (c : ℝ)
    (h : p.currentCapacity = some c) (hg : c = 0 ∨ p.chargeCycles < 50) :
    calculateCalibrationFactor p = 1.0 := by
  unfold calculateCalibrationFactor
  rw [h]
  exact if_pos hg

theorem calibrationFactor_of_main (p : BatteryProfile) (c : ℝ)
    (h : p.currentCapacity = some c) (hg : ¬(c = 0 ∨ p.chargeCycles < 50)) :
    calculateCalibrationFactor p =
      if 100 - (computeDegradation p 1.0).modelHealthPct < 0.1 then 1.0
      else max 0.1 (min 3.0 ((100 - c / p.nominalCapacity.getD 100 * 100) /
        (100 - (computeDegradation p 1.0).modelHealthPct))) := by
  unfold calculateCalibrationFactor
  rw [h]
  exact if_neg hg

def insufficientConfidence : Confidence :=
  { level := "low"
    description := "Insufficient cycle data for accurate prediction"
    accuracy := "±6 months" }

theorem modelConfidence_of_none (p : BatteryProfile)
    (h : p.currentCapacity = none) :
    getModelConfidence p = insufficientConfidence := by
  unfold getModelConfidence
  rw [h]
  rfl

theorem modelConfidence_of_guard (p : BatteryProfile) (c : ℝ)
    (h : p.currentCapacity = some c) (hg : c = 0 ∨ p.chargeCycles < 50) :
    getModelConfidence p = insufficientConfidence := by
  unfold getModelConfidence
  rw [h]
  exact if_pos hg

theorem modelConfidence_of_main (p : BatteryProfile) (c : ℝ)
    (h : p.currentCapacity = some c) (hg : ¬(c = 0 ∨ p.chargeCycles < 50)) :
    getModelConfidence p =
      (if 0.8 ≤ calculateCalibrationFactor p ∧ calculateCalibrationFactor p ≤ 1.2 then
        { level := "high"
          description := "Model closely matches measured performance"
          accuracy := "±2 months" }
      else if 0.5 ≤ calculateCalibrationFactor p ∧ calculateCalibrationFactor p ≤ 2.0 then
        { level := "medium"
          description := "Model adjusted based on actual measurements"
          accuracy := "±4 months" }
      else
        { level := "low"
          description := "Significant deviation between model and measurements"
          accuracy := "±6 months" } : Confidence) := by
  unfold getModelConfidence
  rw [h]
  exact if_neg hg

/-! ## C2: the InvalidProfile precondition -/

/-- C2: if `nominalCapacity` is missing, zero, or negative, `evaluateFade`
raises the InvalidProfile error (and hence returns no result); for every
profile with `nominalCapacity > 0` it does not raise and returns the computed
fade result. -/
theorem C2_invalid_profile_guard (p : BatteryProfile) :
    ((p.nominalCapacity = none ∨ ∃ c, p.nominalCapacity = some c ∧ c ≤ 0) →
      evaluateFade p = .error "nominalCapacity must be a positive number")
  ∧ (∀ nc, p.nominalCapacity = some nc → 0 < nc →
      evaluateFade p = .ok (computeDegradation p 1.0)) := by
  constructor
  · rintro (h | ⟨c, hc, hle⟩)
    · simp [evaluateFade, h]
    · simp [evaluateFade, hc, if_pos hle]
  · intro nc h hpos
    simp [evaluateFade, h, not_le.mpr hpos]

def missingNominalProfile : BatteryProfile :=
  ⟨0, 25, none, none, 80, 0.8, none, none⟩

def okNominalProfile : BatteryProfile :=
  ⟨0, 25, some 100, none, 80, 0.8, none, none⟩

theorem C2_invalid_profile_guard_witness :
    evaluateFade missingNominalProfile =
      .error "nominalCapacity must be a positive number"
  ∧ evaluateFade okNominalProfile = .ok (computeDegradation okNominalProfile 1.0) :=
  ⟨(C2_invalid_profile_guard missingNominalProfile).1 (Or.inl rfl),
   (C2_invalid_profile_guard okNominalProfile).2 100 rfl (by norm_num)⟩

/-! ## C3: the fade formulas -/

/-- C3: for every profile with `dodPct ≥ 0` and every calibration factor `f`,
the cycle fade fraction is `0.015·f·(dodPct/100)^0.6·√(max(chargeCycles,0))·
(1 + max(0, cRate−1)·0.5)`; the calendar fade fraction is
`0.01·f·exp(−25000/(8.314·(T+273.15)))·years^0.7` when `years > 0` and `0`
when `years = 0`; `modelHealthPct = max(0, 100 − 100·(sum of fractions))`;
and zero cycles with zero years give total fade `0` and `modelHealthPct = 100`. -/
theorem C3_fade_formulas (p : BatteryProfile) (f : ℝ) (hd : 0 ≤ p.dodPct) :
    cycleFadeFraction p f =
      0.015 * f * (p.dodPct / 100) ^ (0.6 : ℝ) * Real.sqrt (max p.chargeCycles 0) *
        (1 + max 0 (p.cRate - 1) * 0.5)
  ∧ (0 < resolvedYears p →
      calendarFadeFraction p f =
        0.01 * f * Real.exp (-25000 / (8.314 * (p.avgTemperature + 273.15))) *
          resolvedYears p ^ (0.7 : ℝ))
  ∧ (resolvedYears p = 0 → calendarFadeFraction p f = 0)
  ∧ (computeDegradation p f).modelHealthPct =
      max 0 (100 - (cycleFadeFraction p f + calendarFadeFraction p f) * 100)
  ∧ (p.chargeCycles = 0 → resolvedYears p = 0 →
      (cycleFadeFraction p f + calendarFadeFraction p f) * 100 = 0 ∧
        (computeDegradation p f).modelHealthPct = 100) := by
  have hcr : cRateAccel p = 1 + max 0 (p.cRate - 1) * 0.5 := by
    unfold cRateAccel
    by_cases h1 : 1 < p.cRate
    · rw [if_pos h1, max_eq_right (by linarith)]
    · rw [if_neg h1, max_eq_left (by push_neg at h1; linarith)]
      ring
  have hcyc : cycleFadeFraction p f =
      0.015 * f * (p.dodPct / 100) ^ (0.6 : ℝ) * Real.sqrt (max p.chargeCycles 0) *
        (1 + max 0 (p.cRate - 1) * 0.5) := by
    unfold cycleFadeFraction dodFactor
    rw [hcr, max_eq_left hd]
  have hcalpos : 0 < resolvedYears p →
      calendarFadeFraction p f =
        0.01 * f * Real.exp (-25000 / (8.314 * (p.avgTemperature + 273.15))) *
          resolvedYears p ^ (0.7 : ℝ) := by
    intro hy
    unfold calendarFadeFraction arrhenius R
    rw [if_pos hy]
  have hcalzero : resolvedYears p = 0 → calendarFadeFraction p f = 0 := by
    intro hy
    unfold calendarFadeFraction
    rw [hy, if_neg (lt_irrefl 0)]
  refine ⟨hcyc, hcalpos, hcalzero, rfl, ?_⟩
  intro hc hy
  have h0 : cycleFadeFraction p f = 0 := by
    unfold cycleFadeFraction
    rw [hc, max_self, Real.sqrt_zero]
    ring
  have hsum : (cycleFadeFraction p f + calendarFadeFraction p f) * 100 = 0 := by
    rw [h0, hcalzero hy]; ring
  refine ⟨hsum, ?_⟩
  rw [computeDegradation_modelHealthPct]
  unfold modelHealthPct totalFadePct
  rw [hsum]
  norm_num

def zeroStressProfile : BatteryProfile :=
  ⟨0, 25, some 100, none, 80, 0.8, none, none⟩

theorem C3_fade_formulas_witness :
    0 ≤ zeroStressProfile.dodPct ∧
    ((cycleFadeFraction zeroStressProfile 1.0 +
        calendarFadeFraction zeroStressProfile 1.0) * 100 = 0 ∧
      (computeDegradation zeroStressProfile 1.0).modelHealthPct = 100) :=
  ⟨by norm_num [zeroStressProfile],
   (C3_fade_formulas zeroStressProfile 1.0 (by norm_num [zeroStressProfile])).2.2.2.2
     rfl (by norm_num [resolvedYears, zeroStressProfile])⟩

/-! ## C4: observed health override -/

def zeroMeasurementProfile : BatteryProfile :=
  ⟨0, 25, some 100, some 0, 80, 0.8, none, none⟩

/-- C4 counterexample: on the profile with `currentCapacity = 0` supplied (and
otherwise zero stress), the code returns `observedHealthPct = 100` (the model
value), while the claimed formula `clamp(currentCapacity/nominalCapacity·100,
0, 100)` evaluates to `0`: the claim's "whenever currentCapacity is supplied"
fails at a supplied value of `0`. -/
theorem C4_counterexample :
    zeroMeasurementProfile.currentCapacity = some 0
  ∧ (computeDegradation zeroMeasurementProfile 1.0).healthPct = 100
  ∧ max 0 (min 100 ((0 : ℝ) / 100 * 100)) = 0
  ∧ (computeDegradation zeroMeasurementProfile 1.0).healthPct ≠
      max 0 (min 100 ((0 : ℝ) / 100 * 100)) := by
  have h100 : (computeDegradation zeroMeasurementProfile 1.0).healthPct = 100 := by
    rw [computeDegradation_healthPct]
    unfold observedHealthPct
    simp only [zeroMeasurementProfile, if_pos rfl]
    unfold modelHealthPct totalFadePct cycleFadeFraction calendarFadeFraction resolvedYears
    norm_num [Real.sqrt_zero]
  refine ⟨rfl, h100, by norm_num, ?_⟩
  rw [h100]
  norm_num

/-- C4 amended: `observedHealthPct` equals `modelHealthPct` when
`currentCapacity` is absent **or equal to 0** (JavaScript truthiness treats a
zero measurement as absent), and equals
`clamp(currentCapacity/nominalCapacity·100, 0, 100)` whenever
`currentCapacity` is supplied with a nonzero value. -/
theorem C4_observed_health (p : BatteryProfile) (f : ℝ) (nc : ℝ)
    (hn : p.nominalCapacity = some nc) :
    ((p.currentCapacity = none ∨ p.currentCapacity = some 0) →
      (computeDegradation p f).healthPct = (computeDegradation p f).modelHealthPct)
  ∧ (∀ c, p.currentCapacity = some c → c ≠ 0 →
      (computeDegradation p f).healthPct = max 0 (min 100 (c / nc * 100))) := by
  rw [computeDegradation_healthPct, computeDegradation_modelHealthPct]
  constructor
  · rintro (h | h) <;> simp [observedHealthPct, h]
  · intro c hc hne
    simp [observedHealthPct, hc, hne, hn]

def measuredProfile : BatteryProfile :=
  ⟨0, 25, some 50, some 40, 80, 0.8, none, none⟩

theorem C4_observed_health_witness :
    (computeDegradation measuredProfile 1.0).healthPct =
      max 0 (min 100 ((40 : ℝ) / 50 * 100)) :=
  (C4_observed_health measuredProfile 1.0 50 rfl).2 40 rfl (by norm_num)

/-! ## C5: calibration boundedness -/

/-- C5: for every profile with `nominalCapacity > 0`, the calibration factor
lies in `[0.1, 3.0]`; and whenever the degenerate guard `modelFadePct < 0.1`
holds (with a nonzero measurement and at least 50 cycles), the function
returns `1.0` without dividing. -/
theorem C5_calibration_bounded (p : BatteryProfile) (nc : ℝ)
    (hn : p.nominalCapacity = some nc) (hpos : 0 < nc) :
    calculateCalibrationFactor p ∈ Set.Icc (0.1 : ℝ) 3.0
  ∧ (∀ c, p.currentCapacity = some c → c ≠ 0 → ¬ p.chargeCycles < 50 →
      100 - (computeDegradation p 1.0).modelHealthPct < 0.1 →
      calculateCalibrationFactor p = 1.0) := by
  constructor
  · cases hc : p.currentCapacity with
    | none =>
      rw [calibrationFactor_of_none p hc]
      exact ⟨by norm_num, by norm_num⟩
    | some c =>
      by_cases hg : c = 0 ∨ p.chargeCycles < 50
      · rw [calibrationFactor_of_guard p c hc hg]
        exact ⟨by norm_num, by norm_num⟩
      · rw [calibrationFactor_of_main p c hc hg]
        by_cases hsmall : 100 - (computeDegradation p 1.0).modelHealthPct < 0.1
        · rw [if_pos hsmall]; exact ⟨by norm_num, by norm_num⟩
        · rw [if_neg hsmall]
          exact ⟨le_max_left _ _, max_le (by norm_num) (min_le_left _ _)⟩
  · intro c hc hne hcyc hsmall
    rw [calibrationFactor_of_main p c hc (by simp [hne, hcyc]), if_pos hsmall]

def unmeasuredProfile : BatteryProfile :=
  ⟨0, 25, some 100, none, 80, 0.8, none, none⟩

theorem C5_calibration_bounded_witness :
    calculateCalibrationFactor unmeasuredProfile ∈ Set.Icc (0.1 : ℝ) 3.0 :=
  (C5_calibration_bounded unmeasuredProfile 100 rfl (by norm_num)).1

/-! ## C6: calibration no-op -/

/-- C6: when `currentCapacity` is absent or `chargeCycles < 50`, the
calibration factor is exactly `1.0`. -/
theorem C6_calibration_noop (p : BatteryProfile)
    (h : p.currentCapacity = none ∨ p.chargeCycles < 50) :
    calculateCalibrationFactor p = 1.0 := by
  cases hc : p.currentCapacity with
  | none => exact calibrationFactor_of_none p hc
  | some c =>
    rcases h with h | h
    · exact absurd (hc ▸ h) (by simp)
    · exact calibrationFactor_of_guard p c hc (Or.inr h)

def freshProfile : BatteryProfile :=
  ⟨10, 25, some 100, some 95, 80, 0.8, none, none⟩

theorem C6_calibration_noop_witness :
    calculateCalibrationFactor freshProfile = 1.0 :=
  C6_calibration_noop freshProfile (Or.inr (by norm_num [freshProfile]))

/-! ## C9: zero measurement behaves as absent -/

/-- C9: a supplied `currentCapacity` of exactly `0` is treated like an absent
measurement: the calibration factor is `1.0`, the reported health equals the
model health, and the confidence level is `"low"` — with no condition on
`chargeCycles` (so also when `chargeCycles ≥ 50`). -/
theorem C9_zero_measurement (p : BatteryProfile) (f : ℝ)
    (h : p.currentCapacity = some 0) :
    calculateCalibrationFactor p = 1.0
  ∧ (computeDegradation p f).healthPct = (computeDegradation p f).modelHealthPct
  ∧ (getModelConfidence p).level = "low" := by
  refine ⟨?_, ?_, ?_⟩
  · exact calibrationFactor_of_guard p 0 h (Or.inl rfl)
  · rw [computeDegradation_healthPct, computeDegradation_modelHealthPct]
    simp [observedHealthPct, h]
  · rw [modelConfidence_of_guard p 0 h (Or.inl rfl)]
    rfl

def zeroCapacityManyCycles : BatteryProfile :=
  ⟨100, 25, some 100, some 0, 80, 0.8, none, none⟩

theorem C9_zero_measurement_witness :
    calculateCalibrationFactor zeroCapacityManyCycles = 1.0
  ∧ (computeDegradation zeroCapacityManyCycles 1.0).healthPct =
      (computeDegradation zeroCapacityManyCycles 1.0).modelHealthPct
  ∧ (getModelConfidence zeroCapacityManyCycles).level = "low" :=
  C9_zero_measurement zeroCapacityManyCycles 1.0 rfl

/-! ## C7: confidence mapping -/

def zeroMeasuredFiftyCycles : BatteryProfile :=
  ⟨50, 25, some 100, some 0, 80, 0.8, none, none⟩

/-- C7 counterexample: the profile with `chargeCycles = 50` and a *supplied*
`currentCapacity = 0` has a calibration factor of `1.0 ∈ [0.8, 1.2]`, so the
claim's "otherwise" branch predicts level `"high"`; the code's truthiness
guard `!currentCapacity` fires instead and returns `"low"`. -/
theorem C7_counterexample :
    zeroMeasuredFiftyCycles.currentCapacity = some 0
  ∧ ¬ zeroMeasuredFiftyCycles.chargeCycles < 50
  ∧ calculateCalibrationFactor zeroMeasuredFiftyCycles = 1.0
  ∧ (0.8 : ℝ) ≤ 1.0 ∧ (1.0 : ℝ) ≤ 1.2
  ∧ (getModelConfidence zeroMeasuredFiftyCycles).level = "low"
  ∧ (getModelConfidence zeroMeasuredFiftyCycles).level ≠ "high" := by
  have hlow : (getModelConfidence zeroMeasuredFiftyCycles).level = "low" := by
    rw [modelConfidence_of_guard zeroMeasuredFiftyCycles 0 rfl (Or.inl rfl)]
    rfl
  refine ⟨rfl, by norm_num [zeroMeasuredFiftyCycles],
    calibrationFactor_of_guard zeroMeasuredFiftyCycles 0 rfl (Or.inl rfl),
    by norm_num, by norm_num, hlow, ?_⟩
  rw [hlow]
  decide

/-- C7 amended: `assessConfidence` returns `"low"`/`"±6 months"` whenever
`currentCapacity` is absent **or zero** or `chargeCycles < 50`; otherwise,
with `f` the calibration factor, it returns `"high"`/`"±2 months"` when
`f ∈ [0.8, 1.2]`, `"medium"`/`"±4 months"` when `f ∈ [0.5, 2.0]` but not in
`[0.8, 1.2]`, and `"low"`/`"±6 months"` otherwise (so a factor of `1.0` with a
nonzero measurement and ≥ 50 cycles gives `"high"`, and `0.3` gives `"low"`). -/
theorem C7_confidence_mapping (p : BatteryProfile) :
    ((p.currentCapacity = none ∨ p.currentCapacity = some 0 ∨
        p.chargeCycles < 50) →
      (getModelConfidence p).level = "low" ∧
        (getModelConfidence p).accuracy = "±6 months")
  ∧ (∀ c, p.currentCapacity = some c → c ≠ 0 → ¬ p.chargeCycles < 50 →
      ((0.8 ≤ calculateCalibrationFactor p ∧ calculateCalibrationFactor p ≤ 1.2) →
        (getModelConfidence p).level = "high" ∧
          (getModelConfidence p).accuracy = "±2 months")
    ∧ (¬ (0.8 ≤ calculateCalibrationFactor p ∧ calculateCalibrationFactor p ≤ 1.2) →
        (0.5 ≤ calculateCalibrationFactor p ∧ calculateCalibrationFactor p ≤ 2.0) →
        (getModelConfidence p).level = "medium" ∧
          (getModelConfidence p).accuracy = "±4 months")
    ∧ (¬ (0.8 ≤ calculateCalibrationFactor p ∧ calculateCalibrationFactor p ≤ 1.2) →
        ¬ (0.5 ≤ calculateCalibrationFactor p ∧ calculateCalibrationFactor p ≤ 2.0) →
        (getModelConfidence p).level = "low" ∧
          (getModelConfidence p).accuracy = "±6 months")) := by
  constructor
  · rintro (h | h | h)
    · rw [modelConfidence_of_none p h]
      exact ⟨rfl, rfl⟩
    · rw [modelConfidence_of_guard p 0 h (Or.inl rfl)]
      exact ⟨rfl, rfl⟩
    · cases hc : p.currentCapacity with
      | none =>
        rw [modelConfidence_of_none p hc]
        exact ⟨rfl, rfl⟩
      | some c =>
        rw [modelConfidence_of_guard p c hc (Or.inr h)]
        exact ⟨rfl, rfl⟩
  · intro c hc hne hcyc
    rw [modelConfidence_of_main p c hc (by simp [hne, hcyc])]
    refine ⟨?_, ?_, ?_⟩
    · intro hhigh
      rw [if_pos hhigh]
      exact ⟨rfl, rfl⟩
    · intro hhigh hmed
      rw [if_neg hhigh, if_pos hmed]
      exact ⟨rfl, rfl⟩
    · intro hhigh hmed
      rw [if_neg hhigh, if_neg hmed]
      exact ⟨rfl, rfl⟩

def absentMeasurementProfile : BatteryProfile :=
  ⟨200, 25, some 100, none, 80, 0.8, none, none⟩

theorem C7_confidence_mapping_witness :
    (getModelConfidence absentMeasurementProfile).level = "low" ∧
      (getModelConfidence absentMeasurementProfile).accuracy = "±6 months" :=
  (C7_confidence_mapping absentMeasurementProfile).1 (Or.inl rfl)

/-! ## Trend infrastructure -/

theorem trendPoint_cycle (p : BatteryProfile) (f tc i : ℝ) :
    (trendPoint p f tc i).cycle = i := rfl

theorem endPoint_cycle (p : BatteryProfile) (f tc : ℝ) :
    (endPoint p f tc).cycle = tc := rfl

theorem trendStep_pos (tc : ℝ) : 0 < trendStep tc :=
  lt_of_lt_of_le (by norm_num) (le_max_left 25 _)

theorem trendLoop_head? (p : BatteryProfile) (f tc : ℝ) (s : ℕ) :
    (trendLoop p f tc s).head? = some (trendPoint p f tc 0) := by
  unfold trendLoop
  rw [List.range_succ_eq_map, List.map_cons, List.head?_cons]
  norm_num

theorem trendLoop_getLast? (p : BatteryProfile) (f tc : ℝ) (s : ℕ) :
    (trendLoop p f tc s).getLast? =
      some (trendPoint p f tc ((⌊tc / (s : ℝ)⌋₊ : ℝ) * s)) := by
  unfold trendLoop
  rw [List.range_succ, List.map_append, List.map_singleton,
    List.getLast?_append_of_ne_nil _ (by simp)]
  rfl

theorem trendLoop_ne_nil (p : BatteryProfile) (f tc : ℝ) (s : ℕ) :
    trendLoop p f tc s ≠ [] := by
  intro h
  have hh := congrArg List.head? h
  rw [trendLoop_head? p f tc s] at hh
  simp at hh

theorem buildTrend_eq (p : BatteryProfile) :
    buildTrend p =
      if ((⌊max p.chargeCycles 0 / (trendStep (max p.chargeCycles 0) : ℝ)⌋₊ : ℝ) *
            trendStep (max p.chargeCycles 0) < max p.chargeCycles 0) then
        trendLoop p (calculateCalibrationFactor p) (max p.chargeCycles 0)
            (trendStep (max p.chargeCycles 0)) ++
          [endPoint p (calculateCalibrationFactor p) (max p.chargeCycles 0)]
      else
        trendLoop p (calculateCalibrationFactor p) (max p.chargeCycles 0)
          (trendStep (max p.chargeCycles 0)) := by
  simp only [buildTrend, trendLoop_getLast?, trendPoint_cycle]

theorem floor_mul_step_le (tc : ℝ) (s : ℕ) (hs : 0 < s) (htc : 0 ≤ tc) :
    ((⌊tc / (s : ℝ)⌋₊ : ℝ)) * s ≤ tc := by
  have hsR : (0 : ℝ) < s := by exact_mod_cast hs
  have h1 : ((⌊tc / (s : ℝ)⌋₊ : ℝ)) ≤ tc / s := Nat.floor_le (by positivity)
  exact (le_div_iff hsR).1 h1

theorem observedHealthPct_of_none (p : BatteryProfile) (f : ℝ)
    (h : p.currentCapacity = none) :
    observedHealthPct p f = modelHealthPct p f := by
  unfold observedHealthPct
  rw [h]

theorem simProfile_currentCapacity (p : BatteryProfile) (tc i : ℝ) :
    (simProfile p tc i).currentCapacity = none := rfl

theorem endProfile_currentCapacity (p : BatteryProfile) (tc : ℝ) :
    (endProfile p tc).currentCapacity = none := rfl

theorem round2_100 : round2 (100 : ℝ) = 100 := by
  unfold round2
  rw [show ⌊(100 : ℝ) * 100 + 1 / 2⌋ = (10000 : ℤ) from
    Int.floor_eq_iff.mpr (by norm_num)]
  norm_num

theorem round2_84 : round2 (84 : ℝ) = 84 := by
  unfold round2
  rw [show ⌊(84 : ℝ) * 100 + 1 / 2⌋ = (8400 : ℤ) from
    Int.floor_eq_iff.mpr (by norm_num)]
  norm_num

theorem totalFadePct_simProfile_zero (p : BatteryProfile) (f tc : ℝ) :
    totalFadePct (simProfile p tc 0) f = 0 := by
  have h1 : cycleFadeFraction (simProfile p tc 0) f = 0 := by
    unfold cycleFadeFraction
    rw [show (simProfile p tc 0).chargeCycles = 0 from rfl, max_self,
      Real.sqrt_zero, mul_zero, zero_mul]
  have h2 : calendarFadeFraction (simProfile p tc 0) f = 0 := by
    have hys : resolvedYears (simProfile p tc 0) = 0 := by
      unfold resolvedYears simProfile
      norm_num
    unfold calendarFadeFraction
    rw [hys, if_neg (lt_irrefl 0)]
  unfold totalFadePct
  rw [h1, h2]
  ring

theorem trendPoint_zero_health (p : BatteryProfile) (f tc : ℝ) :
    (trendPoint p f tc 0).healthPct = 100 := by
  show round2 (computeDegradation (simProfile p tc 0) f).healthPct = 100
  rw [computeDegradation_healthPct,
    observedHealthPct_of_none _ _ (simProfile_currentCapacity p tc 0)]
  unfold modelHealthPct
  rw [totalFadePct_simProfile_zero]
  norm_num [round2_100]

/-! ## C1: trend endpoint anchoring -/

/-- C1: for every profile with `chargeCycles = N ≥ 0`, `buildTrend` returns a
non-empty sequence, strictly ascending in `cycle`, whose first point has
`cycle = 0` and `healthPct = 100`, and whose last point has `cycle = N`
exactly, regardless of `N`'s relation to the step size. -/
theorem C1_trend_anchoring (p : BatteryProfile) (hN : 0 ≤ p.chargeCycles) :
    (∃ first, (buildTrend p).head? = some first ∧
        first.cycle = 0 ∧ first.healthPct = 100)
  ∧ (∃ lastPt, (buildTrend p).getLast? = some lastPt ∧
        lastPt.cycle = p.chargeCycles)
  ∧ (buildTrend p).Chain' (fun a b => a.cycle < b.cycle) := by
  rw [buildTrend_eq p, max_eq_left hN]
  have hs0 : 0 < trendStep p.chargeCycles := trendStep_pos _
  have hsR : (0 : ℝ) < (trendStep p.chargeCycles : ℝ) := by exact_mod_cast hs0
  have hms : ((⌊p.chargeCycles / (trendStep p.chargeCycles : ℝ)⌋₊ : ℝ) *
      trendStep p.chargeCycles) ≤ p.chargeCycles :=
    floor_mul_step_le _ _ hs0 hN
  have hchain : (trendLoop p (calculateCalibrationFactor p) p.chargeCycles
      (trendStep p.chargeCycles)).Chain' (fun a b => a.cycle < b.cycle) := by
    unfold trendLoop
    rw [List.chain'_map, List.chain'_range_succ]
    intro k hk
    simp only [trendPoint_cycle]
    push_cast
    nlinarith [hsR]
  by_cases happ : ((⌊p.chargeCycles / (trendStep p.chargeCycles : ℝ)⌋₊ : ℝ) *
      trendStep p.chargeCycles) < p.chargeCycles
  · rw [if_pos happ]
    refine ⟨⟨trendPoint p (calculateCalibrationFactor p) p.chargeCycles 0, ?_, rfl,
        trendPoint_zero_health p (calculateCalibrationFactor p) p.chargeCycles⟩,
      ⟨endPoint p (calculateCalibrationFactor p) p.chargeCycles, ?_, rfl⟩, ?_⟩
    · rw [List.head?_append_of_ne_nil _ (trendLoop_ne_nil p _ _ _)]
      exact trendLoop_head? p _ _ _
    · rw [List.getLast?_append_of_ne_nil _ (by simp)]
      rfl
    · rw [List.chain'_append]
      refine ⟨hchain, List.chain'_singleton _, ?_⟩
      intro x hx y hy
      simp only [Option.mem_def, trendLoop_getLast?, Option.some.injEq] at hx
      simp only [Option.mem_def, List.head?_cons, Option.some.injEq] at hy
      rw [← hx, ← hy]
      simp only [trendPoint_cycle, endPoint_cycle]
      exact happ
  · rw [if_neg happ]
    have heq : ((⌊p.chargeCycles / (trendStep p.chargeCycles : ℝ)⌋₊ : ℝ) *
        trendStep p.chargeCycles) = p.chargeCycles :=
      le_antisymm hms (not_lt.1 happ)
    exact ⟨⟨trendPoint p (calculateCalibrationFactor p) p.chargeCycles 0,
        trendLoop_head? p _ _ _, rfl,
        trendPoint_zero_health p (calculateCalibrationFactor p) p.chargeCycles⟩,
      ⟨trendPoint p (calculateCalibrationFactor p) p.chargeCycles
          ((⌊p.chargeCycles / (trendStep p.chargeCycles : ℝ)⌋₊ : ℝ) *
            trendStep p.chargeCycles),
        trendLoop_getLast? p _ _ _, heq⟩, hchain⟩

def simpleProfile : BatteryProfile := ⟨0, 25, some 100, none, 80, 0.8, none, none⟩

theorem C1_trend_anchoring_witness :
    (∃ first, (buildTrend simpleProfile).head? = some first ∧
        first.cycle = 0 ∧ first.healthPct = 100)
  ∧ (∃ lastPt, (buildTrend simpleProfile).getLast? = some lastPt ∧
        lastPt.cycle = simpleProfile.chargeCycles)
  ∧ (buildTrend simpleProfile).Chain' (fun a b => a.cycle < b.cycle) :=
  C1_trend_anchoring simpleProfile (by norm_num [simpleProfile])

/-! ## Monotonicity infrastructure -/

theorem round2_mono {x y : ℝ} (h : x ≤ y) : round2 x ≤ round2 y := by
  unfold round2
  have hfl : ⌊x * 100 + 1 / 2⌋ ≤ ⌊y * 100 + 1 / 2⌋ :=
    Int.floor_le_floor (by linarith)
  have hcast : ((⌊x * 100 + 1 / 2⌋ : ℤ) : ℝ) ≤ ((⌊y * 100 + 1 / 2⌋ : ℤ) : ℝ) := by
    exact_mod_cast hfl
  linarith

theorem resolvedYears_nonneg (p : BatteryProfile) : 0 ≤ resolvedYears p := by
  unfold resolvedYears
  cases p.calendarAgeYears with
  | none => exact le_max_right _ _
  | some y => exact le_max_right _ _

theorem cRateAccel_nonneg (p : BatteryProfile) : 0 ≤ cRateAccel p := by
  unfold cRateAccel
  by_cases h : 1 < p.cRate
  · rw [if_pos h]; linarith
  · rw [if_neg h]; norm_num

theorem calibrationFactor_nonneg (p : BatteryProfile) :
    0 ≤ calculateCalibrationFactor p := by
  cases hc : p.currentCapacity with
  | none => rw [calibrationFactor_of_none p hc]; norm_num
  | some c =>
    by_cases hg : c = 0 ∨ p.chargeCycles < 50
    · rw [calibrationFactor_of_guard p c hc hg]; norm_num
    · rw [calibrationFactor_of_main p c hc hg]
      split
      · norm_num
      · exact le_trans (by norm_num) (le_max_left _ _)

theorem totalFadePct_mono (p1 p2 : BatteryProfile) (f : ℝ) (hf : 0 ≤ f)
    (hT : p1.avgTemperature = p2.avgTemperature)
    (hd : p1.dodPct = p2.dodPct) (hc : p1.cRate = p2.cRate)
    (hcy : max p1.chargeCycles 0 ≤ max p2.chargeCycles 0)
    (hy : resolvedYears p1 ≤ resolvedYears p2) :
    totalFadePct p1 f ≤ totalFadePct p2 f := by
  have hdod : dodFactor p1 = dodFactor p2 := by unfold dodFactor; rw [hd]
  have hcra : cRateAccel p1 = cRateAccel p2 := by unfold cRateAccel; rw [hc]
  have hd0 : 0 ≤ dodFactor p2 := Real.rpow_nonneg (by positivity) _
  have hc0 : 0 ≤ cRateAccel p2 := cRateAccel_nonneg p2
  have hcyc : cycleFadeFraction p1 f ≤ cycleFadeFraction p2 f := by
    unfold cycleFadeFraction
    rw [hdod, hcra]
    have hs := Real.sqrt_le_sqrt hcy
    have hA : 0 ≤ 0.015 * f * dodFactor p2 :=
      mul_nonneg (mul_nonneg (by norm_num) hf) hd0
    exact mul_le_mul_of_nonneg_right (mul_le_mul_of_nonneg_left hs hA) hc0
  have hcal : calendarFadeFraction p1 f ≤ calendarFadeFraction p2 f := by
    unfold calendarFadeFraction
    rw [hT]
    have hy1 : 0 ≤ resolvedYears p1 := resolvedYears_nonneg p1
    have harr : 0 ≤ arrhenius (p2.avgTemperature + 273.15) 25000 :=
      le_of_lt (Real.exp_pos _)
    by_cases h1 : 0 < resolvedYears p1
    · rw [if_pos h1, if_pos (lt_of_lt_of_le h1 hy)]
      exact mul_le_mul_of_nonneg_left
        (Real.rpow_le_rpow hy1 hy (by norm_num))
        (mul_nonneg (mul_nonneg (by norm_num) hf) harr)
    · rw [if_neg h1]
      by_cases h2 : 0 < resolvedYears p2
      · rw [if_pos h2]
        exact mul_nonneg (mul_nonneg (mul_nonneg (by norm_num) hf) harr)
          (Real.rpow_nonneg (le_of_lt h2) _)
      · rw [if_neg h2]
  unfold totalFadePct
  nlinarith [add_le_add hcyc hcal]

theorem resolvedYears_simProfile (p : BatteryProfile) (tc i : ℝ) :
    resolvedYears (simProfile p tc i) =
      max (rawYears p * (i / max (if tc = 0 then 1 else tc) 1)) 0 := rfl

theorem resolvedYears_endProfile (p : BatteryProfile) (tc : ℝ) :
    resolvedYears (endProfile p tc) = max (rawYears p) 0 := rfl

theorem trendDenom_pos (tc : ℝ) :
    0 < max (if tc = 0 then (1 : ℝ) else tc) 1 :=
  lt_of_lt_of_le one_pos (le_max_right _ _)

theorem le_trendDenom (tc : ℝ) (htc : 0 ≤ tc) :
    tc ≤ max (if tc = 0 then (1 : ℝ) else tc) 1 := by
  by_cases h : tc = 0
  · rw [h]; exact le_trans (by norm_num) (le_max_right _ _)
  · rw [if_neg h]; exact le_max_left _ _

theorem scaledYears_mono (y D i j : ℝ) (hD : 0 < D) (hi : 0 ≤ i)
    (hij : i ≤ j) :
    max (y * (i / D)) 0 ≤ max (y * (j / D)) 0 := by
  rcases le_or_lt 0 y with hy | hy
  · have hdiv : i / D ≤ j / D := by
      apply div_le_div_of_nonneg_right hij hD.le
    exact max_le_max (mul_le_mul_of_nonneg_left hdiv hy) le_rfl
  · have hi2 : y * (i / D) ≤ 0 := by nlinarith [div_nonneg hi hD.le]
    have hj2 : y * (j / D) ≤ 0 := by nlinarith [div_nonneg (hi.trans hij) hD.le]
    rw [max_eq_right hi2, max_eq_right hj2]

theorem scaledYears_le_raw (y D i : ℝ) (hD : 0 < D) (hi : 0 ≤ i)
    (hiD : i ≤ D) :
    max (y * (i / D)) 0 ≤ max y 0 := by
  rcases le_or_lt 0 y with hy | hy
  · have h1 : i / D ≤ 1 := (div_le_one hD).mpr hiD
    have h2 : y * (i / D) ≤ y * 1 := mul_le_mul_of_nonneg_left h1 hy
    rw [mul_one] at h2
    exact max_le_max h2 le_rfl
  · have hi2 : y * (i / D) ≤ 0 := by nlinarith [div_nonneg hi hD.le]
    rw [max_eq_right hi2, max_eq_right hy.le]

theorem trendPoint_health_anti (p : BatteryProfile) (f tc i j : ℝ)
    (hf : 0 ≤ f) (hi : 0 ≤ i) (hij : i ≤ j) :
    (trendPoint p f tc j).healthPct ≤ (trendPoint p f tc i).healthPct := by
  show round2 (computeDegradation (simProfile p tc j) f).healthPct ≤
    round2 (computeDegradation (simProfile p tc i) f).healthPct
  apply round2_mono
  rw [computeDegradation_healthPct, computeDegradation_healthPct,
    observedHealthPct_of_none _ _ (simProfile_currentCapacity p tc j),
    observedHealthPct_of_none _ _ (simProfile_currentCapacity p tc i)]
  unfold modelHealthPct
  have hfade : totalFadePct (simProfile p tc i) f ≤
      totalFadePct (simProfile p tc j) f :=
    totalFadePct_mono (simProfile p tc i) (simProfile p tc j) f hf rfl rfl rfl
      (max_le_max hij le_rfl)
      (by rw [resolvedYears_simProfile, resolvedYears_simProfile]
          exact scaledYears_mono _ _ _ _ (trendDenom_pos tc) hi hij)
  exact max_le_max le_rfl (by linarith)

theorem endPoint_health_anti (p : BatteryProfile) (f i : ℝ) (hf : 0 ≤ f)
    (hi : 0 ≤ i) (hitc : i ≤ max p.chargeCycles 0) :
    (endPoint p f (max p.chargeCycles 0)).healthPct ≤
      (trendPoint p f (max p.chargeCycles 0) i).healthPct := by
  show round2 (computeDegradation (endProfile p (max p.chargeCycles 0)) f).healthPct ≤
    round2 (computeDegradation (simProfile p (max p.chargeCycles 0) i) f).healthPct
  apply round2_mono
  rw [computeDegradation_healthPct, computeDegradation_healthPct,
    observedHealthPct_of_none _ _ (endProfile_currentCapacity p _),
    observedHealthPct_of_none _ _ (simProfile_currentCapacity p _ i)]
  unfold modelHealthPct
  have htc0 : (0 : ℝ) ≤ max p.chargeCycles 0 := le_max_right _ _
  have hfade : totalFadePct (simProfile p (max p.chargeCycles 0) i) f ≤
      totalFadePct (endProfile p (max p.chargeCycles 0)) f :=
    totalFadePct_mono (simProfile p (max p.chargeCycles 0) i)
      (endProfile p (max p.chargeCycles 0)) f hf rfl rfl rfl
      (max_le_max hitc le_rfl)
      (by rw [resolvedYears_simProfile, resolvedYears_endProfile]
          exact scaledYears_le_raw _ _ _ (trendDenom_pos _) hi
            (le_trans hitc (le_trendDenom _ htc0)))
  exact max_le_max le_rfl (by linarith)

/-! ## C10: trend health is non-increasing -/

/-- C10: for every profile with `dodPct ≥ 0` and non-negative calendar age,
the `healthPct` values along the sequence returned by `buildTrend` are
non-increasing as `cycle` increases, including the appended terminal point
(rounding to 2 decimals preserves the order). -/
theorem C10_trend_health_nonincreasing (p : BatteryProfile)
    (hd : 0 ≤ p.dodPct) (hy : 0 ≤ rawYears p) :
    (buildTrend p).Chain' (fun a b => b.healthPct ≤ a.healthPct) := by
  rw [buildTrend_eq p]
  have hf : 0 ≤ calculateCalibrationFactor p := calibrationFactor_nonneg p
  have hsR : (0 : ℝ) < (trendStep (max p.chargeCycles 0) : ℝ) := by
    exact_mod_cast trendStep_pos _
  have hloop : (trendLoop p (calculateCalibrationFactor p) (max p.chargeCycles 0)
      (trendStep (max p.chargeCycles 0))).Chain'
        (fun a b => b.healthPct ≤ a.healthPct) := by
    unfold trendLoop
    rw [List.chain'_map, List.chain'_range_succ]
    intro k hk
    apply trendPoint_health_anti _ _ _ _ _ hf (by positivity)
    push_cast
    nlinarith [hsR]
  split
  · rw [List.chain'_append]
    refine ⟨hloop, List.chain'_singleton _, ?_⟩
    intro x hx y hy2
    simp only [Option.mem_def, trendLoop_getLast?, Option.some.injEq] at hx
    simp only [Option.mem_def, List.head?_cons, Option.some.injEq] at hy2
    rw [← hx, ← hy2]
    exact endPoint_health_anti p _ _ hf (by positivity)
      (floor_mul_step_le _ _ (trendStep_pos _) (le_max_right _ _))
  · exact hloop

def steadyProfile : BatteryProfile :=
  ⟨100, 25, some 90, none, 80, 0.8, some 12, none⟩

theorem C10_trend_health_nonincreasing_witness :
    (buildTrend steadyProfile).Chain' (fun a b => b.healthPct ≤ a.healthPct) :=
  C10_trend_health_nonincreasing steadyProfile (by norm_num [steadyProfile])
    (by norm_num [rawYears, steadyProfile])

/-! ## C8: the worked scenario -/

def scenarioProfile : BatteryProfile :=
  ⟨550, 32, some 100, some 84, 80, 0.8, some 24, none⟩

theorem scenario_cycleFade :
    cycleFadeFraction scenarioProfile 1.0 =
      0.015 * ((0.8 : ℝ) ^ (0.6 : ℝ)) * Real.sqrt 550 := by
  unfold cycleFadeFraction dodFactor cRateAccel scenarioProfile
  norm_num [max_def]

theorem scenario_resolvedYears : resolvedYears scenarioProfile = 2 := by
  unfold resolvedYears scenarioProfile
  norm_num [max_def]

theorem scenario_calendarFade :
    calendarFadeFraction scenarioProfile 1.0 =
      0.01 * Real.exp (-(25000 : ℝ) / (8.314 * 305.15)) * (2 : ℝ) ^ (0.7 : ℝ) := by
  unfold calendarFadeFraction arrhenius R
  rw [scenario_resolvedYears, if_pos (by norm_num)]
  norm_num [scenarioProfile]

theorem d08_bounds :
    (0.8 : ℝ) ≤ (0.8 : ℝ) ^ (0.6 : ℝ) ∧ (0.8 : ℝ) ^ (0.6 : ℝ) ≤ 1 := by
  constructor
  · calc (0.8 : ℝ) = (0.8 : ℝ) ^ (1 : ℝ) := (Real.rpow_one _).symm
    _ ≤ (0.8 : ℝ) ^ (0.6 : ℝ) :=
      Real.rpow_le_rpow_of_exponent_ge (by norm_num) (by norm_num) (by norm_num)
  · exact Real.rpow_le_one (by norm_num) (by norm_num) (by norm_num)

theorem sqrt550_bounds : (23 : ℝ) ≤ Real.sqrt 550 ∧ Real.sqrt 550 ≤ 24 := by
  have h := Real.sq_sqrt (show (0 : ℝ) ≤ 550 by norm_num)
  have h0 := Real.sqrt_nonneg (550 : ℝ)
  constructor <;> nlinarith [h, h0]

theorem scenario_exp_bounds :
    0 < Real.exp (-(25000 : ℝ) / (8.314 * 305.15)) ∧
      Real.exp (-(25000 : ℝ) / (8.314 * 305.15)) ≤ 1 := by
  refine ⟨Real.exp_pos _, ?_⟩
  rw [Real.exp_le_one_iff]
  norm_num

theorem two_rpow_bounds :
    (1 : ℝ) ≤ (2 : ℝ) ^ (0.7 : ℝ) ∧ (2 : ℝ) ^ (0.7 : ℝ) ≤ 2 := by
  constructor
  · calc (1 : ℝ) = (2 : ℝ) ^ (0 : ℝ) := (Real.rpow_zero 2).symm
    _ ≤ (2 : ℝ) ^ (0.7 : ℝ) :=
      Real.rpow_le_rpow_of_exponent_le (by norm_num) (by norm_num)
  · calc (2 : ℝ) ^ (0.7 : ℝ) ≤ (2 : ℝ) ^ (1 : ℝ) :=
      Real.rpow_le_rpow_of_exponent_le (by norm_num) (by norm_num)
    _ = 2 := Real.rpow_one 2

theorem scenario_fade_bounds :
    27 ≤ totalFadePct scenarioProfile 1.0 ∧ totalFadePct scenarioProfile 1.0 ≤ 38 := by
  have hd := d08_bounds
  have hs := sqrt550_bounds
  have he := scenario_exp_bounds
  have ht := two_rpow_bounds
  have hs0 : (0 : ℝ) ≤ Real.sqrt 550 := Real.sqrt_nonneg _
  unfold totalFadePct
  rw [scenario_cycleFade, scenario_calendarFade]
  constructor <;>
    nlinarith [hd.1, hd.2, hs.1, hs.2, he.1, he.2, ht.1, ht.2, hs0,
      mul_le_mul hd.2 hs.2 hs0 (by norm_num : (0:ℝ) ≤ 1),
      mul_le_mul he.2 ht.2 (by linarith [ht.1] : (0:ℝ) ≤ (2:ℝ) ^ (0.7:ℝ))
        (by norm_num : (0:ℝ) ≤ 1)]

theorem scenario_modelHealth :
    (computeDegradation scenarioProfile 1.0).modelHealthPct =
      100 - totalFadePct scenarioProfile 1.0 := by
  rw [computeDegradation_modelHealthPct]
  unfold modelHealthPct
  exact max_eq_right (by linarith [scenario_fade_bounds.2])

theorem scenario_calibration :
    calculateCalibrationFactor scenarioProfile =
      16 / totalFadePct scenarioProfile 1.0 := by
  have hb := scenario_fade_bounds
  have hpos : (0 : ℝ) < totalFadePct scenarioProfile 1.0 := by linarith [hb.1]
  rw [calibrationFactor_of_main scenarioProfile 84 rfl (by norm_num [scenarioProfile]),
    scenario_modelHealth]
  rw [show (100 : ℝ) - (100 - totalFadePct scenarioProfile 1.0) =
    totalFadePct scenarioProfile 1.0 from by ring]
  rw [if_neg (by linarith [hb.1])]
  rw [show (100 : ℝ) - 84 / (scenarioProfile.nominalCapacity.getD 100) * 100 = 16 from by
    norm_num [scenarioProfile]]
  rw [min_eq_right (by rw [div_le_iff hpos]; linarith [hb.1]),
    max_eq_right (by rw [le_div_iff hpos]; linarith [hb.2])]

theorem totalFadePct_linear (p : BatteryProfile) (f : ℝ) :
    totalFadePct p f = f * totalFadePct p 1.0 := by
  unfold totalFadePct cycleFadeFraction calendarFadeFraction
  split <;> ring

theorem totalFadePct_congr (p1 p2 : BatteryProfile)
    (hT : p1.avgTemperature = p2.avgTemperature) (hd : p1.dodPct = p2.dodPct)
    (hc : p1.cRate = p2.cRate)
    (hcy : max p1.chargeCycles 0 = max p2.chargeCycles 0)
    (hy : resolvedYears p1 = resolvedYears p2) (f : ℝ) :
    totalFadePct p1 f = totalFadePct p2 f := by
  unfold totalFadePct cycleFadeFraction calendarFadeFraction dodFactor cRateAccel
  rw [hT, hd, hc, hcy, hy]

theorem scenario_end_fade :
    totalFadePct (endProfile scenarioProfile (max scenarioProfile.chargeCycles 0)) 1.0 =
      totalFadePct scenarioProfile 1.0 :=
  totalFadePct_congr
    (endProfile scenarioProfile (max scenarioProfile.chargeCycles 0))
    scenarioProfile rfl rfl rfl
    (by show max (max scenarioProfile.chargeCycles 0) 0 =
          max scenarioProfile.chargeCycles 0
        rw [max_assoc, max_self])
    (by rw [resolvedYears_endProfile, scenario_resolvedYears]
        unfold rawYears scenarioProfile
        norm_num [max_def]) 1.0

theorem sim_zero_health (p : BatteryProfile) (f tc : ℝ) :
    (computeDegradation (simProfile p tc 0) f).healthPct = 100 := by
  rw [computeDegradation_healthPct,
    observedHealthPct_of_none _ _ (simProfile_currentCapacity p tc 0)]
  unfold modelHealthPct
  rw [totalFadePct_simProfile_zero]
  norm_num

theorem scenario_end_health :
    (computeDegradation (endProfile scenarioProfile (max scenarioProfile.chargeCycles 0))
        (calculateCalibrationFactor scenarioProfile)).healthPct = 84 := by
  have hb := scenario_fade_bounds
  have hpos : (0 : ℝ) < totalFadePct scenarioProfile 1.0 := by linarith [hb.1]
  rw [computeDegradation_healthPct,
    observedHealthPct_of_none _ _ (endProfile_currentCapacity _ _)]
  unfold modelHealthPct
  rw [totalFadePct_linear, scenario_end_fade, scenario_calibration,
    div_mul_cancel₀ _ (ne_of_gt hpos)]
  norm_num

theorem scenario_step : trendStep (max scenarioProfile.chargeCycles 0) = 27 := by
  have hfl : ⌊max scenarioProfile.chargeCycles 0 / (20 : ℝ)⌋₊ = 27 := by
    rw [Nat.floor_eq_iff (by norm_num [scenarioProfile, max_def])]
    norm_num [scenarioProfile, max_def]
  unfold trendStep
  rw [hfl]
  norm_num

theorem scenario_floor_div :
    ⌊max scenarioProfile.chargeCycles 0 / ((27 : ℕ) : ℝ)⌋₊ = 20 := by
  rw [Nat.floor_eq_iff (by norm_num [scenarioProfile, max_def])]
  norm_num [scenarioProfile, max_def]

/-- C8: on the profile `{nominalCapacity: 100, currentCapacity: 84,
chargeCycles: 550, avgTemperature: 32, dodPct: 80, cRate: 0.8,
calendarAgeMonths: 24}`, `evaluateFade` succeeds with
`observedHealthPct = 84`, and `buildTrend` starts at `{0, 100, 100}` and ends
at the appended terminal point `{550, 84, 84}` — the calibrated pure-model
terminal value coincides with the measured ratio. -/
theorem C8_worked_scenario :
    evaluateFade scenarioProfile = .ok (computeDegradation scenarioProfile 1.0)
  ∧ (computeDegradation scenarioProfile 1.0).healthPct = 84
  ∧ (buildTrend scenarioProfile).head? = some ⟨0, 100, 100⟩
  ∧ (buildTrend scenarioProfile).getLast? = some ⟨550, 84, 84⟩ := by
  have hcond : ((⌊max scenarioProfile.chargeCycles 0 /
      (trendStep (max scenarioProfile.chargeCycles 0) : ℝ)⌋₊ : ℝ) *
        trendStep (max scenarioProfile.chargeCycles 0) <
      max scenarioProfile.chargeCycles 0) := by
    rw [scenario_step, scenario_floor_div]
    norm_num [scenarioProfile, max_def]
  refine ⟨?_, ?_, ?_, ?_⟩
  · unfold evaluateFade scenarioProfile
    norm_num
  · rw [computeDegradation_healthPct]
    unfold observedHealthPct scenarioProfile
    norm_num [max_def, min_def]
  · rw [buildTrend_eq, if_pos hcond,
      List.head?_append_of_ne_nil _ (trendLoop_ne_nil _ _ _ _), trendLoop_head?]
    unfold trendPoint
    rw [sim_zero_health]
    norm_num [scenarioProfile, round2_100]
  · rw [buildTrend_eq, if_pos hcond,
      List.getLast?_append_of_ne_nil _ (by simp)]
    show some (endPoint scenarioProfile (calculateCalibrationFactor scenarioProfile)
      (max scenarioProfile.chargeCycles 0)) = some ⟨550, 84, 84⟩
    unfold endPoint
    rw [scenario_end_health]
    norm_num [scenarioProfile, round2_84, max_def]
